import Mathlib

/-!
Shallow embedding of the startup/lifecycle orchestrator of the trinci-node
repository (src/app.rs, src/monitor/worker.rs, src/monitor/service.rs).

The block engine, storage and networking live in the external `trinci_core`
crate and are reached only through the Block Request Channel and a small
lifecycle interface; following the spec they are treated as black boxes.
Replies arriving on the channel, and failure outcomes of I/O operations, are
therefore inputs of the embedded functions.  A Rust `panic!` / `.unwrap()`
failure is modelled as the `none` case of an `Option` result (or an explicit
`panicked` outcome), since a panic aborts the process.
-/

namespace TrinciNode

/-- Error kinds carried by a blockchain `Message::Exception` reply
(`trinci_core::ErrorKind`); only `ResourceNotFound` is distinguished by the
code under study, every other kind is collapsed into `otherKind`. -/
inductive ErrKind where
  | resourceNotFound
  | otherKind (description : String)
deriving DecidableEq, Repr

/-- The reply shapes that can arrive on the per-request reply channel for the
`GetAccountRequest` issued by `is_service_present` (src/app.rs lines 71-87).
`getAccountResponse` carries the account and the requested data fields (both
ignored by the match, which binds them with `_`); `exception` carries an error
kind; `otherMessage` stands for every other `Message` variant. -/
inductive AccountReply where
  | getAccountResponse (acc : String) (data : List (Option (List Nat)))
  | exception (err : ErrKind)
  | otherMessage (tag : String)
deriving DecidableEq, Repr

/-- Result of `recv_sync` on the reply channel: either a message or a
channel-closed error. -/
inductive RecvOutcome where
  | ok (m : AccountReply)
  | channelError (e : String)
deriving DecidableEq, Repr

/-- src/app.rs `is_service_present` (lines 71-87): sends a
`GetAccountRequest { id: SERVICE_ACCOUNT_ID, data: vec![] }` and matches the
single reply.  `some true` = account present (Established), `some false` =
`ResourceNotFound` (Unestablished), `none` = `panic!` (process abort). -/
def is_service_present (reply : RecvOutcome) : Option Bool :=
  match reply with
  | .ok (.getAccountResponse _ _) => some true
  | .ok (.exception .resourceNotFound) => some false
  | .ok (.exception _) => none
  | .ok (.otherMessage _) => none
  | .channelError _ => none

/-- The blockchain settings record (`trinci_core::base::BlockchainSettings`),
with exactly the fields the orchestrator constructs at src/app.rs lines
470-478.  `block_timeout` is a `u16` in the source; `Nat` here. -/
structure BlockchainSettings where
  accept_broadcast : Bool
  block_threshold : Nat
  block_timeout : Nat
  burning_fuel_method : String
  network_name : Option String
  is_production : Bool
  min_node_version : String
deriving DecidableEq, Repr

/-- The validator predicate installed into the block engine: either the
temporary constant closure `is_validator_function_temporary value`
(src/app.rs lines 92-94) or the live `is_validator_function_call` closure
(lines 97-137), whose captured state we do not inspect. -/
inductive ValidatorPred where
  | temporary (value : Bool)
  | functionCall
deriving DecidableEq, Repr

/-- Operations invoked on the block engine handle (`BlockService` lifecycle
interface consumed in src/app.rs): `stop`, `start`, `set_block_config`,
`set_burn_fuel_method`, `set_validator`, `put_txs`, `store_config_into_db`.
`α` is the opaque transaction type (`trinci_core::Transaction`). -/
inductive EngineOp (α : Type) where
  | stop
  | start
  | setBlockConfig (network : String) (threshold : Nat) (timeout : Nat)
  | setBurnFuelMethod (method : String)
  | setValidator (pred : ValidatorPred)
  | putTxs (txs : List α)
  | storeConfigIntoDb (cfg : BlockchainSettings)
deriving DecidableEq, Repr

/-- `true` exactly for the operations that mutate the engine configuration,
predicate or pool (everything except the lifecycle calls `stop`/`start`). -/
def EngineOp.isMutation {α : Type} : EngineOp α → Bool
  | .stop => false
  | .start => false
  | _ => true

/-- Abstract state of the block engine: its running flag plus the pieces of
configuration the orchestrator mutates. -/
structure EngineState (α : Type) where
  running : Bool
  network : String
  threshold : Nat
  timeout : Nat
  burnMethod : String
  validator : ValidatorPred
  pool : List α
deriving DecidableEq, Repr

/-- Effect of a single engine operation on the engine state. -/
def applyOp {α : Type} (s : EngineState α) : EngineOp α → EngineState α
  | .stop => { s with running := false }
  | .start => { s with running := true }
  | .setBlockConfig n t tmo => { s with network := n, threshold := t, timeout := tmo }
  | .setBurnFuelMethod m => { s with burnMethod := m }
  | .setValidator p => { s with validator := p }
  | .putTxs txs => { s with pool := s.pool ++ txs }
  | .storeConfigIntoDb _ => s

/-- Pairs each operation of a sequence with the engine state in force just
before that operation executes, starting from state `s`. -/
def statesBefore {α : Type} (s : EngineState α) : List (EngineOp α) → List (EngineState α × EngineOp α)
  | [] => []
  | op :: rest => (s, op) :: statesBefore (applyOp s op) rest

/-- src/app.rs `App::set_block_service_config` (lines 359-370): stop the
engine, set the block config (network name, threshold, timeout), set the
burn-fuel method, start the engine.  `config.network_name.unwrap()` panics
when the name is absent, modelled as `none`. -/
def set_block_service_config {α : Type} (config : BlockchainSettings) : Option (List (EngineOp α)) :=
  match config.network_name with
  | none => none
  | some name =>
    some [EngineOp.stop,
          EngineOp.setBlockConfig name config.block_threshold config.block_timeout,
          EngineOp.setBurnFuelMethod config.burning_fuel_method,
          EngineOp.start]

/-- src/app.rs `App::set_block_service_is_validator` (lines 405-409): stop,
install the validator predicate, start. -/
def set_block_service_is_validator {α : Type} (is_validator : ValidatorPred) : List (EngineOp α) :=
  [EngineOp.stop, EngineOp.setValidator is_validator, EngineOp.start]

/-- src/app.rs `App::put_txs_in_the_pool` (lines 412-416): stop, put the
transactions into the pool, start. -/
def put_txs_in_the_pool {α : Type} (txs : List α) : List (EngineOp α) :=
  [EngineOp.stop, EngineOp.putTxs txs, EngineOp.start]

/-- The `BlockchainSettings` record literal built in the genesis branch of
`App::start` (src/app.rs lines 470-478), whose threshold is 42 when the
bootstrap transaction list is empty and the transaction count otherwise
(lines 464-468). -/
def genesisSettings {α : Type} (bootstrap_txs : List α) : BlockchainSettings :=
  { accept_broadcast := false
    block_threshold := if bootstrap_txs.isEmpty then 42 else bootstrap_txs.length
    block_timeout := 2
    burning_fuel_method := ""
    network_name := some "bootstrap"
    is_production := true
    min_node_version := "0.2.6" }

/-- Steps performed by the temporary thread spawned in the empty-bundle
genesis branch of `App::start` (src/app.rs lines 488-518). -/
inductive BgAction where
  | bgBootstrapMonitor
  | bgLoadConfigFromService
  | bgEngineStop
  | bgSetBlockConfig
  | bgSetBurnFuelMethod
  | bgStoreConfigIntoDb
  | bgSetValidatorLive
  | bgEngineStart
  | bgP2pSetNetworkName
  | bgP2pStart
deriving DecidableEq, Repr

/-- The body of the spawned bootstrap thread, in source order
(src/app.rs lines 489-517). -/
def bootstrapThreadBody : List BgAction :=
  [BgAction.bgBootstrapMonitor,
   BgAction.bgLoadConfigFromService,
   BgAction.bgEngineStop,
   BgAction.bgSetBlockConfig,
   BgAction.bgSetBurnFuelMethod,
   BgAction.bgStoreConfigIntoDb,
   BgAction.bgSetValidatorLive,
   BgAction.bgEngineStart,
   BgAction.bgP2pSetNetworkName,
   BgAction.bgP2pStart]

/-- Observable steps of `App::start` (src/app.rs lines 437-560) at the
orchestrator level.  `joiningBranch` / `genesisBranch` mark which arm of the
`if is_service_present` conditional executes; `loadBootstrapFile` is the call
to `load_bootstrap_struct_from_file` (the Genesis Loader, which reads the
bootstrap file); `setConfigFromDb` is `App::set_config_from_db`, which loads
`BlockchainSettings` from persistent storage; `runBootstrapMonitorInline` is
the blocking call `bootstrap_monitor(chan)` on the calling thread, while
`spawnBootstrapThread` is `std::thread::spawn` of `bootstrapThreadBody`. -/
inductive Action (α : Type) where
  | blockSvcStart
  | queryServicePresent
  | joiningBranch
  | genesisBranch
  | setConfigFromDb
  | setValidatorLive
  | setP2pNetworkName (name : String)
  | loadBootstrapFile
  | storeServiceAccount
  | setBlockServiceConfig (cfg : BlockchainSettings)
  | spawnBootstrapThread
  | putTxsInPool (txs : List α)
  | runBootstrapMonitorInline
  | loadConfigFromService
  | storeConfigIntoDb
  | restStart
  | p2pStart
  | bridgeStart
  | monitorStart
deriving DecidableEq, Repr

/-- Trace of orchestrator steps performed by `App::start` (src/app.rs lines
437-560), as a function of the reply observed by the Bootstrap Resolver
(`service_present`, line 445), the network name read back by
`set_config_from_db` in the joining branch (`stored_network_name`), the
content-derived name of the bootstrap file (`good_network_name`, line 458)
and the bootstrap bundle's transaction list (`bootstrap_txs`).  The trace
covers the executions that do not abort; every `panic!` path inside the
helpers is modelled in the helpers themselves. -/
def App.start {α : Type} (service_present : Bool) (stored_network_name : String)
    (good_network_name : String) (bootstrap_txs : List α) : List (Action α) :=
  [Action.blockSvcStart, Action.queryServicePresent] ++
  (if service_present then
    [Action.joiningBranch,
     Action.setConfigFromDb,
     Action.setValidatorLive,
     Action.setP2pNetworkName stored_network_name,
     Action.restStart, Action.p2pStart, Action.bridgeStart, Action.monitorStart]
  else
    [Action.genesisBranch,
     Action.loadBootstrapFile,
     Action.storeServiceAccount,
     Action.setBlockServiceConfig (genesisSettings bootstrap_txs)] ++
    (if bootstrap_txs.isEmpty then
      [Action.spawnBootstrapThread,
       Action.restStart, Action.bridgeStart, Action.monitorStart]
    else
      [Action.putTxsInPool bootstrap_txs,
       Action.runBootstrapMonitorInline,
       Action.loadConfigFromService,
       Action.storeConfigIntoDb,
       Action.setConfigFromDb,
       Action.setValidatorLive,
       Action.setP2pNetworkName good_network_name,
       Action.restStart, Action.p2pStart, Action.bridgeStart, Action.monitorStart]))

/-- One tick's `is_running()` observations of the five owned services
(block engine, REST, peer, bridge, monitor), src/app.rs lines 566-588. -/
structure ServiceStatus where
  block : Bool
  rest : Bool
  p2p : Bool
  bridge : Bool
  monitor : Bool
deriving DecidableEq, Repr

/-- A `stop()` call issued by the park loop, src/app.rs lines 590-595. -/
inductive StopCall where
  | stopBlock
  | stopRest
  | stopP2p
  | stopBridge
  | stopMonitor
deriving DecidableEq, Repr

/-- The `stop` flag computed by one iteration of `App::park` (src/app.rs
lines 565-588): set when the block, REST, bridge or monitor service reports
not running.  The peer-service poll is commented out in the source (lines
574-577), so `p2p` is not consulted. -/
def parkTickStop (s : ServiceStatus) : Bool :=
  !s.block || !s.rest || !s.bridge || !s.monitor

/-- The stop calls issued when the park loop shuts down, in source order
(src/app.rs lines 590-595). -/
def parkStopSequence : List StopCall :=
  [StopCall.stopBlock, StopCall.stopRest, StopCall.stopP2p,
   StopCall.stopBridge, StopCall.stopMonitor]

/-- `App::park` (src/app.rs lines 562-600) run over a finite list of per-tick
observations: at the first tick whose observations set the `stop` flag it
issues `parkStopSequence` and breaks out of the loop; if no observed tick
sets the flag it is still looping (`none`). -/
def App.park : List ServiceStatus → Option (List StopCall)
  | [] => none
  | s :: rest => if parkTickStop s then some parkStopSequence else App.park rest

/-- The outcome of a monitor-worker operation: normal return, or a Rust
`panic!`/`.unwrap()` abort. -/
inductive MonOutcome where
  | ok
  | panicked
deriving DecidableEq, Repr

/-- Failure pattern of one `MonitorWorker::send_update` call
(src/monitor/worker.rs lines 158-184): JSON serialization of the status may
fail, building the POST request may fail, and sending it may fail. -/
structure SendFailures where
  serializeFails : Bool
  buildRequestFails : Bool
  postFails : Bool
deriving DecidableEq, Repr

/-- `MonitorWorker::send_update` (src/monitor/worker.rs lines 158-184): every
failure path is a `warn!` followed by an early `return` (serialization,
request building) or just a `warn!` (send), never a panic. -/
def send_update (f : SendFailures) : MonOutcome :=
  if f.serializeFails then MonOutcome.ok
  else if f.buildRequestFails then MonOutcome.ok
  else if f.postFails then MonOutcome.ok
  else MonOutcome.ok

/-- `MonitorWorker::save_update` (src/monitor/worker.rs lines 187-353):
`File::create(file).unwrap()` at line 232 panics when creating the report
file fails; every subsequent `write_all` failure only triggers
`.is_err().then(|| warn!(...))` and execution continues. -/
def save_update (createFails : Bool) (writeFails : Bool) : MonOutcome :=
  if createFails then MonOutcome.panicked
  else
    match writeFails with
    | true => MonOutcome.ok
    | false => MonOutcome.ok

/-- The reporting part of one iteration of `MonitorWorker::run`
(src/monitor/worker.rs lines 391-405) once a `GetCoreStatsResponse` arrived:
update the snapshot, `send_update`, `save_update`; the iteration survives
(and the loop continues) iff neither call panics. -/
def monitorReportCycle (f : SendFailures) (createFails writeFails : Bool) : MonOutcome :=
  match send_update f with
  | MonOutcome.panicked => MonOutcome.panicked
  | MonOutcome.ok => save_update createFails writeFails

/-- The block fields consumed by the monitor (src/monitor/worker.rs lines
301-315): `block.data.{prev_hash, txs_hash, rxs_hash, state_hash, height,
size}`.  Hashes are byte lists. -/
structure BlockData where
  prev_hash : List Nat
  txs_hash : List Nat
  rxs_hash : List Nat
  state_hash : List Nat
  height : Nat
  size : Nat
deriving DecidableEq, Repr

/-- `trinci_core::Block` as seen by the monitor worker. -/
structure Block where
  data : BlockData
deriving DecidableEq, Repr

/-- src/monitor/worker.rs `LastBlock` (lines 49-52): the last block received
by the node together with its hash. -/
structure LastBlock where
  block : Block
  hash : List Nat
deriving DecidableEq, Repr

/-- src/monitor/worker.rs `UnconfirmedPool` (lines 42-45). -/
structure UnconfirmedPool where
  hash : List Nat
  size : Nat
deriving DecidableEq, Repr

/-- src/monitor/worker.rs `NodeRole` (lines 73-77). -/
inductive NodeRole where
  | ordinary
  | validator
deriving DecidableEq, Repr

/-- src/monitor/worker.rs `NetworkConfig` (lines 64-70). -/
structure NetworkConfig where
  name : String
  block_threshold : Nat
  block_timeout : Nat
deriving DecidableEq, Repr

/-- src/monitor/worker.rs `P2pInfo` (lines 55-61). -/
structure P2pInfo where
  p2p_addr : String
  p2p_port : Nat
  p2p_bootstrap_addr : Option String
deriving DecidableEq, Repr

/-- src/monitor/worker.rs `Status` (lines 80-105): the monitor snapshot. -/
structure Status where
  public_key : String
  nw_public_key : String
  ip_endpoint : Option String
  pub_ip : Option String
  role : NodeRole
  nw_config : NetworkConfig
  core_version : String
  last_block : Option LastBlock
  unconfirmed_pool : Option UnconfirmedPool
  p2p_info : P2pInfo
  seed : Nat
deriving DecidableEq, Repr

/-- Reply to the `GetSeedRequest` issued inside `MonitorWorker::update`
(src/monitor/worker.rs lines 138-154). -/
inductive SeedReply where
  | seedRespone (seed : Nat)
  | unexpectedMessage
  | channelClosed
deriving DecidableEq, Repr

/-- `MonitorWorker::update` (src/monitor/worker.rs lines 128-155):
`unconfirmed_pool` is overwritten with the argument; when a block is
delivered, `last_block` is overwritten with a freshly built `LastBlock`
(the block and its hash, computed by the digest `blockHash`, standing for
`block.hash(HashAlgorithm::Sha256)` from `trinci_core`); the seed is then
refreshed from the channel, every failure merely logging a warning. -/
def MonitorWorker.update (blockHash : Block → List Nat) (st : Status)
    (block : Option Block) (unconfirmed_pool : Option UnconfirmedPool)
    (seedReply : SeedReply) : Status :=
  let st := { st with unconfirmed_pool := unconfirmed_pool }
  let st :=
    match block with
    | some b => { st with last_block := some { block := b, hash := blockHash b } }
    | none => st
  match seedReply with
  | .seedRespone seed => { st with seed := seed }
  | .unexpectedMessage => st
  | .channelClosed => st

/-- The snapshot refresh performed by one iteration of `MonitorWorker::run`
on a `GetCoreStatsResponse(info)` (src/monitor/worker.rs lines 392-401):
`info` is the pool hash, the pool size, and the optional latest block; a pool
summary is recorded only when the size is positive. -/
def monitorStatsStep (blockHash : Block → List Nat) (st : Status)
    (poolHash : List Nat) (poolSize : Nat) (block : Option Block)
    (seedReply : SeedReply) : Status :=
  if poolSize > 0 then
    MonitorWorker.update blockHash st block (some { hash := poolHash, size := poolSize }) seedReply
  else
    MonitorWorker.update blockHash st block none seedReply

/-- State of `MonitorService` (src/monitor/service.rs lines 25-32): whether
the worker object is still held (it is moved out by `start`) and whether a
thread handle is held. -/
structure MonitorServiceState where
  workerPresent : Bool
  handlerPresent : Bool
deriving DecidableEq, Repr

/-- `MonitorService::stop` (src/monitor/service.rs lines 68-70): its body is
the single statement `debug!("Stopping MONITOR service (TODO)")`; it returns
the state unchanged together with the emitted debug-log line. -/
def MonitorService.stop (s : MonitorServiceState) : MonitorServiceState × List String :=
  (s, ["Stopping MONITOR service (TODO)"])

/-- One iteration's input for the loop of `MonitorWorker::run`
(src/monitor/worker.rs lines 379-414): the `send_sync` of the
`GetCoreStatsRequest` may find the channel closed; otherwise `recv_sync`
yields a closed channel, a `GetCoreStatsResponse`, or an unexpected
message. -/
inductive LoopEvent where
  | sendClosed
  | recvClosed
  | statsResponse (createFails : Bool)
  | unexpectedMessage
deriving DecidableEq, Repr

/-- Whether a loop input reports the Block Request Channel closed. -/
def LoopEvent.isChannelClosed : LoopEvent → Bool
  | .sendClosed => true
  | .recvClosed => true
  | _ => false

/-- How a run of the monitor loop ends within a finite list of inputs. -/
inductive RunRes where
  | stillRunning
  | returned
  | panicked
deriving DecidableEq, Repr

/-- The loop of `MonitorWorker::run` (src/monitor/worker.rs lines 379-414)
over a finite list of iteration inputs: a closed channel at `send_sync` is a
`return`; a closed channel at `recv_sync` is a `break`; a stats response is
processed (`save_update` panics if creating the report file fails, see
`save_update`); an unexpected message is logged; otherwise the loop keeps
going. -/
def monitorLoopRun : List LoopEvent → RunRes
  | [] => RunRes.stillRunning
  | e :: rest =>
    match e with
    | .sendClosed => RunRes.returned
    | .recvClosed => RunRes.returned
    | .statsResponse createFails =>
      if createFails then RunRes.panicked else monitorLoopRun rest
    | .unexpectedMessage => monitorLoopRun rest

/-- `MonitorWorker::run` (src/monitor/worker.rs lines 357-415): the initial
`GetNetworkIdRequest` phase returns early only when `send_sync` reports the
channel closed (lines 362-368); a closed channel or unexpected message at
the initial `recv_sync` is only a warning (lines 369-377) and the loop is
entered. -/
def monitorRun (initSendClosed : Bool) (events : List LoopEvent) : RunRes :=
  if initSendClosed then RunRes.returned else monitorLoopRun events

/-- The base-58 alphabet used by the `bs58` crate (Bitcoin alphabet). -/
def base58Alphabet : List Char :=
  "123456789ABCDEFGHJKLMNPQRSTUVWXYZabcdefghijkmnopqrstuvwxyz".toList

/-- The character for one base-58 digit. -/
def b58Char (d : Nat) : Char :=
  base58Alphabet.getD d ' '

/-- Number of leading zero bytes of a byte string. -/
def leadingZeros (bytes : List Nat) : Nat :=
  (bytes.takeWhile (fun b => b == 0)).length

/-- The big-endian numeric value of a byte string. -/
def ofBytesBE (bytes : List Nat) : Nat :=
  Nat.ofDigits 256 bytes.reverse

/-- Base-58 encoding as performed by `bs58::encode(..).into_string()`: one
alphabet-first character (`'1'`) per leading zero byte, then the base-58
digits of the big-endian value, most significant first. -/
def base58Encode (bytes : List Nat) : List Char :=
  List.replicate (leadingZeros bytes) '1' ++
    ((Nat.digits 58 (ofBytesBE bytes)).reverse.map b58Char)

/-- src/app.rs `calculate_network_name` (lines 172-175):
`bs58::encode(Hash::from_data(HashAlgorithm::Sha256, data)).into_string()`.
`hashBytes` stands for the fixed digest `Hash::from_data(Sha256, ·)` of
`trinci_core` (modelled from the spec: "hash the raw file bytes with a fixed
digest algorithm"; the digest itself lives outside this repository's
sources).  Its output is a byte string (each entry below 256). -/
def calculate_network_name (hashBytes : List Nat → List Nat) (data : List Nat) : String :=
  String.mk (base58Encode (hashBytes data))

/-- src/app.rs `Bootstrap` (lines 189-198): the deserialized bootstrap file —
binary wasm payload, genesis transaction list, uniqueness nonce. -/
structure Bootstrap (α : Type) where
  bin : List Nat
  txs : List α
  nonce : String
deriving DecidableEq, Repr

/-- src/app.rs `load_bootstrap_struct_from_file` (lines 178-188): read the
raw file bytes `buf`, deserialize them (`rmpDeser` stands for
`rmp_deserialize::<Bootstrap>`; a failure is the `panic!` case, `none`), and
return the network name computed from the RAW bytes together with the
bundle's payload and transactions. -/
def load_bootstrap_struct_from_file {α : Type} (hashBytes : List Nat → List Nat)
    (rmpDeser : List Nat → Option (Bootstrap α)) (buf : List Nat) :
    Option (String × List Nat × List α) :=
  match rmpDeser buf with
  | some bs => some (calculate_network_name hashBytes buf, bs.bin, bs.txs)
  | none => none

/-- The stop → mutate → start discipline for a sequence of engine
operations: the sequence opens with `stop` and closes with `start`, the
engine is not running at the moment any mutating operation executes
(whatever state it started from), and the engine is running again once the
sequence completes. -/
def stopMutateStart {α : Type} (ops : List (EngineOp α)) : Prop :=
  ops.head? = some EngineOp.stop ∧
  ops.getLast? = some EngineOp.start ∧
  (∀ s : EngineState α, ∀ pr ∈ statesBefore s ops,
    (pr.2).isMutation = true → (pr.1).running = false) ∧
  (∀ s : EngineState α, (ops.foldl applyOp s).running = true)

/-! Helper lemmas about positional representations and the base-58 code. -/

/-- Digit lists of equal length with digits below the base are determined by
their `Nat.ofDigits` value. -/
theorem ofDigits_injOn_length (b : Nat) (hb : 0 < b) :
    ∀ l1 l2 : List Nat, l1.length = l2.length → (∀ x ∈ l1, x < b) →
      (∀ x ∈ l2, x < b) → Nat.ofDigits b l1 = Nat.ofDigits b l2 → l1 = l2 := by
  intro l1
  induction l1 with
  | nil =>
    intro l2 hlen _ _ _
    cases l2 with
    | nil => rfl
    | cons d2 t2 => simp at hlen
  | cons d1 t1 ih =>
    intro l2 hlen hb1 hb2 hval
    cases l2 with
    | nil => simp at hlen
    | cons d2 t2 =>
      rw [Nat.ofDigits_cons, Nat.ofDigits_cons] at hval
      have hd1 : d1 < b := hb1 d1 (by simp)
      have hd2 : d2 < b := hb2 d2 (by simp)
      have hval' : d1 + b * Nat.ofDigits b t1 = d2 + b * Nat.ofDigits b t2 := by
        exact_mod_cast hval
      have hmod : d1 = d2 := by
        have h1 : (d1 + b * Nat.ofDigits b t1) % b = d1 := by
          rw [Nat.add_mul_mod_self_left, Nat.mod_eq_of_lt hd1]
        have h2 : (d2 + b * Nat.ofDigits b t2) % b = d2 := by
          rw [Nat.add_mul_mod_self_left, Nat.mod_eq_of_lt hd2]
        rw [← h1, ← h2, hval']
      subst hmod
      have htail : Nat.ofDigits b t1 = Nat.ofDigits b t2 :=
        Nat.eq_of_mul_eq_mul_left hb (Nat.add_left_cancel hval')
      have := ih t2 (by simpa using hlen) (fun x hx => hb1 x (by simp [hx]))
        (fun x hx => hb2 x (by simp [hx])) htail
      rw [this]

/-- The base-58 digit characters are pairwise distinct below 58. -/
theorem b58Char_injOn : ∀ d1 < 58, ∀ d2 < 58, b58Char d1 = b58Char d2 → d1 = d2 := by
  decide

/-- Only the zero digit is rendered as the character `'1'`. -/
theorem b58Char_ne_one : ∀ d < 58, d ≠ 0 → b58Char d ≠ '1' := by
  decide

/-- Mapping `b58Char` over digit lists below 58 is injective. -/
theorem map_b58Char_inj :
    ∀ l1 l2 : List Nat, (∀ x ∈ l1, x < 58) → (∀ x ∈ l2, x < 58) →
      l1.map b58Char = l2.map b58Char → l1 = l2 := by
  intro l1
  induction l1 with
  | nil =>
    intro l2 _ _ hmap
    cases l2 with
    | nil => rfl
    | cons d2 t2 => simp at hmap
  | cons d1 t1 ih =>
    intro l2 hb1 hb2 hmap
    cases l2 with
    | nil => simp at hmap
    | cons d2 t2 =>
      simp only [List.map_cons, List.cons.injEq] at hmap
      have hd : d1 = d2 :=
        b58Char_injOn d1 (hb1 d1 (by simp)) d2 (hb2 d2 (by simp)) hmap.1
      have ht : t1 = t2 := ih t2 (fun x hx => hb1 x (by simp [hx]))
        (fun x hx => hb2 x (by simp [hx])) hmap.2
      rw [hd, ht]

/-- Two lists that agree after distinct runs of a marker character, where
neither remainder starts with that marker, have equal run lengths and equal
remainders. -/
theorem replicate_append_inj (c : Char) :
    ∀ z1 z2 : Nat, ∀ m1 m2 : List Char, m1.head? ≠ some c → m2.head? ≠ some c →
      List.replicate z1 c ++ m1 = List.replicate z2 c ++ m2 → z1 = z2 ∧ m1 = m2 := by
  intro z1
  induction z1 with
  | zero =>
    intro z2 m1 m2 h1 _ heq
    cases z2 with
    | zero => simpa using heq
    | succ z2 =>
      exfalso
      rw [List.replicate_succ] at heq
      simp only [List.replicate_zero, List.nil_append, List.cons_append] at heq
      apply h1
      rw [heq]
      rfl
  | succ z1 ih =>
    intro z2 m1 m2 h1 h2 heq
    cases z2 with
    | zero =>
      exfalso
      rw [List.replicate_succ] at heq
      simp only [List.replicate_zero, List.nil_append, List.cons_append] at heq
      apply h2
      rw [← heq]
      rfl
    | succ z2 =>
      rw [List.replicate_succ, List.replicate_succ] at heq
      simp only [List.cons_append, List.cons.injEq] at heq
      obtain ⟨hz, hm⟩ := ih z2 m1 m2 h1 h2 heq.2
      exact ⟨by rw [hz], hm⟩

/-- The digit part of a base-58 encoding never starts with `'1'`: the most
significant digit of a positive value is nonzero, and the zero value has no
digits at all. -/
theorem digitChars_head_ne_one (n : Nat) :
    ((Nat.digits 58 n).reverse.map b58Char).head? ≠ some '1' := by
  rcases eq_or_ne n 0 with h | h
  · subst h
    simp
  · rcases List.eq_nil_or_concat' (Nat.digits 58 n) with hnil | ⟨L, d, hcat⟩
    · exact absurd hnil (Nat.digits_ne_nil_iff_ne_zero.mpr h)
    · have hne : Nat.digits 58 n ≠ [] := Nat.digits_ne_nil_iff_ne_zero.mpr h
      have hlast : (Nat.digits 58 n).getLast hne ≠ 0 := Nat.getLast_digit_ne_zero 58 h
      have hsome : (Nat.digits 58 n).getLast? = some d := by
        rw [hcat]
        exact List.getLast?_concat L
      have hgl : (Nat.digits 58 n).getLast? = some ((Nat.digits 58 n).getLast hne) :=
        List.getLast?_eq_getLast _ hne
      have hd0 : d ≠ 0 := by
        rw [hgl] at hsome
        have : (Nat.digits 58 n).getLast hne = d := by injection hsome
        rw [← this]
        exact hlast
      have hmem : d ∈ Nat.digits 58 n := by
        rw [hcat]
        exact List.mem_append_right _ (by simp)
      have hd58 : d < 58 := Nat.digits_lt_base (by norm_num) hmem
      rw [hcat]
      simp only [List.reverse_append, List.reverse_singleton, List.singleton_append,
        List.map_cons, List.head?_cons]
      intro hc
      have : b58Char d = '1' := by injection hc
      exact b58Char_ne_one d hd58 hd0 this

/-- Base-58 encoding is injective on byte strings of equal length. -/
theorem base58Encode_injOn (l1 l2 : List Nat) (hlen : l1.length = l2.length)
    (hb1 : ∀ x ∈ l1, x < 256) (hb2 : ∀ x ∈ l2, x < 256)
    (henc : base58Encode l1 = base58Encode l2) : l1 = l2 := by
  unfold base58Encode at henc
  obtain ⟨_, hm⟩ := replicate_append_inj '1' _ _ _ _
    (digitChars_head_ne_one (ofBytesBE l1)) (digitChars_head_ne_one (ofBytesBE l2)) henc
  have hdig : (Nat.digits 58 (ofBytesBE l1)).reverse = (Nat.digits 58 (ofBytesBE l2)).reverse := by
    refine map_b58Char_inj _ _ ?_ ?_ hm
    · intro x hx
      exact Nat.digits_lt_base (by norm_num) (List.mem_reverse.mp hx)
    · intro x hx
      exact Nat.digits_lt_base (by norm_num) (List.mem_reverse.mp hx)
  have hdig' : Nat.digits 58 (ofBytesBE l1) = Nat.digits 58 (ofBytesBE l2) :=
    List.reverse_injective hdig
  have hn : ofBytesBE l1 = ofBytesBE l2 := by
    rw [← Nat.ofDigits_digits 58 (ofBytesBE l1), ← Nat.ofDigits_digits 58 (ofBytesBE l2), hdig']
  have hrev : l1.reverse = l2.reverse := by
    refine ofDigits_injOn_length 256 (by norm_num) _ _ (by simpa using hlen) ?_ ?_ hn
    · intro x hx
      exact hb1 x (List.mem_reverse.mp hx)
    · intro x hx
      exact hb2 x (List.mem_reverse.mp hx)
  exact List.reverse_injective hrev

/-- A `stop`, one operation, `start` sequence obeys the stop → mutate →
start discipline. -/
theorem stopMutateStart_single {α : Type} (m : EngineOp α) :
    stopMutateStart [EngineOp.stop, m, EngineOp.start] := by
  refine ⟨rfl, rfl, ?_, ?_⟩
  · intro s pr hpr
    simp only [statesBefore, List.mem_cons, List.not_mem_nil, or_false] at hpr
    rcases hpr with h | h | h <;> subst h
    · intro hmut
      simp [EngineOp.isMutation] at hmut
    · intro _
      simp [applyOp]
    · intro hmut
      simp [EngineOp.isMutation] at hmut
  · intro s
    simp [applyOp]

/-- A `stop`, two mutating operations, `start` sequence obeys the stop →
mutate → start discipline (mutating operations do not change the running
flag). -/
theorem stopMutateStart_pair {α : Type} (m1 m2 : EngineOp α) (hm1 : m1.isMutation = true) :
    stopMutateStart [EngineOp.stop, m1, m2, EngineOp.start] := by
  refine ⟨rfl, rfl, ?_, ?_⟩
  · intro s pr hpr
    simp only [statesBefore, List.mem_cons, List.not_mem_nil, or_false] at hpr
    rcases hpr with h | h | h | h <;> subst h
    · intro hmut
      simp [EngineOp.isMutation] at hmut
    · intro _
      simp [applyOp]
    · intro _
      cases m1 <;> simp [EngineOp.isMutation] at hm1 <;> simp [applyOp]
    · intro hmut
      simp [EngineOp.isMutation] at hmut
  · intro s
    simp [applyOp]

/-- C1: Bootstrap Resolver contract — a `GetAccountResponse` reply (whatever
account and data it carries, including empty data) makes `is_service_present`
return Established (`some true`); an `Exception` of kind resource-not-found
makes it return Unestablished (`some false`); every other reply shape, and a
channel-closed error, makes the process abort (`none`) rather than return a
value. -/
theorem bootstrap_resolver_contract :
    (∀ (acc : String) (data : List (Option (List Nat))),
      is_service_present (RecvOutcome.ok (AccountReply.getAccountResponse acc data)) = some true)
  ∧ is_service_present (RecvOutcome.ok (AccountReply.exception ErrKind.resourceNotFound)) = some false
  ∧ (∀ reply : RecvOutcome,
      (∀ (acc : String) (data : List (Option (List Nat))),
        reply ≠ RecvOutcome.ok (AccountReply.getAccountResponse acc data)) →
      reply ≠ RecvOutcome.ok (AccountReply.exception ErrKind.resourceNotFound) →
      is_service_present reply = none) := by
  refine ⟨fun _ _ => rfl, rfl, ?_⟩
  intro reply h1 h2
  match reply with
  | .ok (.getAccountResponse acc data) => exact absurd rfl (h1 acc data)
  | .ok (.exception .resourceNotFound) => exact absurd rfl h2
  | .ok (.exception (.otherKind _)) => rfl
  | .ok (.otherMessage _) => rfl
  | .channelError _ => rfl

/-- Witness for C1: a channel-closed error aborts. -/
theorem bootstrap_resolver_contract_witness :
    is_service_present (RecvOutcome.channelError "closed") = none :=
  bootstrap_resolver_contract.2.2 (RecvOutcome.channelError "closed")
    (fun _ _ => by simp) (by simp)

/-- C2: mutual exclusivity of the two startup branches of `App::start` — if
the resolver observes Established the Genesis Loader is never invoked (the
bootstrap file is never read), if it observes Unestablished the joining
branch is never taken, and on every boot exactly one of the two branches
executes. -/
theorem startup_branches_mutually_exclusive {α : Type} (sp : Bool)
    (sn gn : String) (txs : List α) :
    (sp = true → Action.genesisBranch ∉ App.start sp sn gn txs ∧
      Action.loadBootstrapFile ∉ App.start sp sn gn txs)
  ∧ (sp = false → Action.joiningBranch ∉ App.start sp sn gn txs)
  ∧ (Action.joiningBranch ∈ App.start sp sn gn txs ↔
      Action.genesisBranch ∉ App.start sp sn gn txs) := by
  cases sp
  · by_cases he : txs.isEmpty <;> simp [App.start, he]
  · simp [App.start]

/-- Witness for C2: with Established the bootstrap file is never read; with
Unestablished the joining branch is never taken. -/
theorem startup_branches_mutually_exclusive_witness :
    (Action.loadBootstrapFile ∉ App.start (α := Nat) true "net" "good" [7]) ∧
    (Action.joiningBranch ∉ App.start (α := Nat) false "net" "good" [7]) :=
  ⟨((startup_branches_mutually_exclusive true "net" "good" [7]).1 rfl).2,
   (startup_branches_mutually_exclusive false "net" "good" [7]).2.1 rfl⟩

/-- C3: content-addressing of the network identifier — the identifier is the
base-58 encoding of the fixed digest of the raw genesis-file bytes, so
byte-identical files yield the identical identifier; files on which the
digest differs (as the spec's fixed digest is assumed to do for any
single-byte difference) yield different identifiers; and the identifier
returned by the loader is a function of the raw file bytes only, never of
any value embedded (deserialized) in the file. -/
theorem network_name_content_addressed :
    (∀ (hashBytes : List Nat → List Nat) (d1 d2 : List Nat), d1 = d2 →
      calculate_network_name hashBytes d1 = calculate_network_name hashBytes d2)
  ∧ (∀ (hashBytes : List Nat → List Nat) (d1 d2 : List Nat),
      (hashBytes d1).length = (hashBytes d2).length →
      (∀ x ∈ hashBytes d1, x < 256) → (∀ x ∈ hashBytes d2, x < 256) →
      hashBytes d1 ≠ hashBytes d2 →
      calculate_network_name hashBytes d1 ≠ calculate_network_name hashBytes d2)
  ∧ (∀ (α : Type) (hashBytes : List Nat → List Nat)
      (rmpDeser : List Nat → Option (Bootstrap α)) (buf : List Nat) (bs : Bootstrap α),
      rmpDeser buf = some bs →
      load_bootstrap_struct_from_file hashBytes rmpDeser buf =
        some (calculate_network_name hashBytes buf, bs.bin, bs.txs)) := by
  refine ⟨fun h d1 d2 hd => by rw [hd], ?_, ?_⟩
  · intro hashBytes d1 d2 hlen hb1 hb2 hne hname
    apply hne
    have hdata : base58Encode (hashBytes d1) = base58Encode (hashBytes d2) := by
      have := congrArg String.data hname
      simpa [calculate_network_name] using this
    exact base58Encode_injOn _ _ hlen hb1 hb2 hdata
  · intro α hashBytes rmpDeser buf bs hdeser
    simp [load_bootstrap_struct_from_file, hdeser]

/-- Witness for C3: two one-byte files separated by the digest receive
different identifiers (digest instantiated with the identity on bytes). -/
theorem network_name_content_addressed_witness :
    calculate_network_name (fun l => l) [0] ≠ calculate_network_name (fun l => l) [1] :=
  network_name_content_addressed.2.1 (fun l => l) [0] [1] rfl
    (by decide) (by decide) (by decide)

/-- C4: stop-mutate-start invariant — each block-engine reconfiguration
performed by the orchestrator (`set_block_service_config`,
`set_block_service_is_validator`, `put_txs_in_the_pool`) stops the engine
strictly before its mutations, restarts it strictly after them, and the
engine is in the stopped state at the moment every mutation is applied. -/
theorem engine_reconfiguration_stop_mutate_start {α : Type} :
    (∀ (cfg : BlockchainSettings) (name : String), cfg.network_name = some name →
      ∀ ops : List (EngineOp α), set_block_service_config cfg = some ops →
        stopMutateStart ops)
  ∧ (∀ p : ValidatorPred, stopMutateStart (set_block_service_is_validator (α := α) p))
  ∧ (∀ txs : List α, stopMutateStart (put_txs_in_the_pool txs)) := by
  refine ⟨?_, ?_, ?_⟩
  · intro cfg name hname ops hops
    rw [set_block_service_config, hname] at hops
    have : ops = [EngineOp.stop,
        EngineOp.setBlockConfig name cfg.block_threshold cfg.block_timeout,
        EngineOp.setBurnFuelMethod cfg.burning_fuel_method, EngineOp.start] := by
      injection hops with h
      rw [← h]
    rw [this]
    exact stopMutateStart_pair _ _ rfl
  · intro p
    exact stopMutateStart_single _
  · intro txs
    exact stopMutateStart_single _

/-- Witness for C4: the reconfiguration for a concrete settings record obeys
the discipline. -/
theorem engine_reconfiguration_stop_mutate_start_witness :
    stopMutateStart (α := Nat)
      [EngineOp.stop, EngineOp.setBlockConfig "bootstrap" 42 2,
       EngineOp.setBurnFuelMethod "", EngineOp.start] :=
  engine_reconfiguration_stop_mutate_start.1
    { accept_broadcast := false, block_threshold := 42, block_timeout := 2,
      burning_fuel_method := "", network_name := some "bootstrap",
      is_production := true, min_node_version := "0.2.6" }
    "bootstrap" rfl _ rfl

/-- C5: genesis scenario with an empty bundle — with no system account and
zero bootstrap transactions, `App::start` configures the block engine with
network name "bootstrap", block threshold 42 and block timeout 2, spawns the
bootstrap-monitor on a detached background thread (whose body begins with
`bootstrap_monitor`), and never runs the bootstrap monitor inline on the
calling thread. -/
theorem start_genesis_empty_bundle {α : Type} (sn gn : String) :
    App.start (α := α) false sn gn [] =
      [Action.blockSvcStart, Action.queryServicePresent, Action.genesisBranch,
       Action.loadBootstrapFile, Action.storeServiceAccount,
       Action.setBlockServiceConfig
         { accept_broadcast := false, block_threshold := 42, block_timeout := 2,
           burning_fuel_method := "", network_name := some "bootstrap",
           is_production := true, min_node_version := "0.2.6" },
       Action.spawnBootstrapThread, Action.restStart, Action.bridgeStart,
       Action.monitorStart]
  ∧ bootstrapThreadBody.head? = some BgAction.bgBootstrapMonitor
  ∧ Action.runBootstrapMonitorInline ∉ App.start (α := α) false sn gn [] := by
  refine ⟨rfl, rfl, ?_⟩
  simp [App.start]

/-- C6: genesis scenario with a non-empty bundle — with no system account
and `txs ≠ []`, `App::start` configures the engine with block threshold
`txs.length`, seeds the pool with exactly those transactions in their
original order, and blocks the calling thread on the bootstrap monitor
before every further startup step (settings load/store, live validator
installation, service starts). -/
theorem start_genesis_nonempty_bundle {α : Type} (sn gn : String)
    (txs : List α) (h : txs ≠ []) :
    App.start false sn gn txs =
      [Action.blockSvcStart, Action.queryServicePresent, Action.genesisBranch,
       Action.loadBootstrapFile, Action.storeServiceAccount,
       Action.setBlockServiceConfig (genesisSettings txs),
       Action.putTxsInPool txs, Action.runBootstrapMonitorInline,
       Action.loadConfigFromService, Action.storeConfigIntoDb,
       Action.setConfigFromDb, Action.setValidatorLive,
       Action.setP2pNetworkName gn, Action.restStart, Action.p2pStart,
       Action.bridgeStart, Action.monitorStart]
  ∧ (genesisSettings txs).block_threshold = txs.length := by
  cases txs with
  | nil => exact absurd rfl h
  | cons a t => exact ⟨rfl, rfl⟩

/-- Witness for C6: the trace for a three-transaction bundle. -/
theorem start_genesis_nonempty_bundle_witness :
    App.start false "net" "good" ([1, 2, 3] : List Nat) =
      [Action.blockSvcStart, Action.queryServicePresent, Action.genesisBranch,
       Action.loadBootstrapFile, Action.storeServiceAccount,
       Action.setBlockServiceConfig (genesisSettings [1, 2, 3]),
       Action.putTxsInPool [1, 2, 3], Action.runBootstrapMonitorInline,
       Action.loadConfigFromService, Action.storeConfigIntoDb,
       Action.setConfigFromDb, Action.setValidatorLive,
       Action.setP2pNetworkName "good", Action.restStart, Action.p2pStart,
       Action.bridgeStart, Action.monitorStart]
  ∧ (genesisSettings ([1, 2, 3] : List Nat)).block_threshold = [1, 2, 3].length :=
  start_genesis_nonempty_bundle "net" "good" [1, 2, 3] (by decide)

/-- C7 counterexample: when creating the report file fails, `save_update`
panics (the `File::create(file).unwrap()` at src/monitor/worker.rs line
232), so that reporting cycle is fatal, contradicting the claim that a
report-file write failure is never fatal. -/
theorem monitor_report_create_failure_fatal :
    save_update true false = MonOutcome.panicked ∧
    monitorReportCycle ⟨false, false, false⟩ true false = MonOutcome.panicked :=
  ⟨rfl, rfl⟩

/-- C7 (amended): every failure of the HTTP status push (serialization,
request building, sending) and every failed write to the successfully
created report file is logged and only skipped — the reporting cycle
completes normally and the monitor loop continues; only a failure to create
the report file itself is fatal. -/
theorem monitor_report_failures_recoverable :
    (∀ f : SendFailures, send_update f = MonOutcome.ok)
  ∧ (∀ writeFails : Bool, save_update false writeFails = MonOutcome.ok)
  ∧ (∀ (f : SendFailures) (writeFails : Bool),
      monitorReportCycle f false writeFails = MonOutcome.ok) := by
  refine ⟨?_, ?_, ?_⟩
  · intro f
    simp [send_update]
  · intro writeFails
    cases writeFails <;> rfl
  · intro f writeFails
    simp [monitorReportCycle, send_update]
    cases writeFails <;> rfl

/-- C8 counterexample: the peer service is owned by the orchestrator, yet on
a tick in which only the peer service reports not-running the park loop
issues no stop calls and keeps looping (its poll is commented out at
src/app.rs lines 574-577), contradicting the claim that every owned
service's `is_running()` is polled. -/
theorem park_ignores_p2p_liveness :
    (⟨true, true, false, true, true⟩ : ServiceStatus).p2p = false ∧
    App.park [⟨true, true, false, true, true⟩] = none :=
  ⟨rfl, rfl⟩

/-- C8 (amended): the park loop polls the block, REST, bridge and monitor
services once per tick (the peer service is not polled); on the first tick
in which any polled service reports not-running it issues a `stop()` call to
each of the five owned services exactly once, in the fixed order block,
REST, peer, bridge, monitor, and returns. -/
theorem park_shutdown_on_polled_service_failure :
    ∀ (pre : List ServiceStatus) (s : ServiceStatus) (post : List ServiceStatus),
      (∀ t ∈ pre, parkTickStop t = false) → parkTickStop s = true →
      App.park (pre ++ s :: post) = some parkStopSequence := by
  intro pre
  induction pre with
  | nil =>
    intro s post _ hs
    simp [App.park, hs]
  | cons t rest ih =>
    intro s post hpre hs
    have ht : parkTickStop t = false := hpre t (by simp)
    simp only [List.cons_append, App.park, ht, if_false, Bool.false_eq_true]
    exact ih s post (fun u hu => hpre u (by simp [hu])) hs

/-- Witness for C8 (amended): the bridge service failing on the first tick
triggers the full stop sequence. -/
theorem park_shutdown_on_polled_service_failure_witness :
    App.park [⟨true, true, true, false, true⟩] = some parkStopSequence :=
  park_shutdown_on_polled_service_failure []
    ⟨true, true, true, false, true⟩ [] (by simp) (by decide)

/-- C9: monitor snapshot replacement — after two consecutive reporting
cycles each delivering a block, the snapshot's `last_block` is exactly the
second cycle's block together with its hash, independent of the first
cycle's block and of every prior snapshot field: the field is replaced
wholesale, never merged. -/
theorem monitor_last_block_replaced_wholesale :
    ∀ (blockHash : Block → List Nat) (st : Status) (b1 b2 : Block)
      (ph1 ph2 : List Nat) (ps1 ps2 : Nat) (r1 r2 : SeedReply),
      (monitorStatsStep blockHash
          (monitorStatsStep blockHash st ph1 ps1 (some b1) r1)
          ph2 ps2 (some b2) r2).last_block =
        some { block := b2, hash := blockHash b2 } := by
  intro blockHash st b1 b2 ph1 ph2 ps1 ps2 r1 r2
  cases r2 <;> by_cases h2 : ps2 > 0 <;>
    simp [monitorStatsStep, MonitorWorker.update, h2]

/-- C10: calling `stop()` on the monitor service leaves the service state
unchanged (it only emits a debug-log line) and cannot terminate the worker;
the worker's run loop returns only upon a channel-closed signal from the
Block Request Channel (at the initial `send_sync` or at a loop
`send_sync`/`recv_sync`). -/
theorem monitor_stop_noop_and_exit_only_on_closed :
    (∀ s : MonitorServiceState, MonitorService.stop s =
      (s, ["Stopping MONITOR service (TODO)"]))
  ∧ (∀ (initSendClosed : Bool) (events : List LoopEvent),
      monitorRun initSendClosed events = RunRes.returned →
      initSendClosed = true ∨ events.any LoopEvent.isChannelClosed = true) := by
  refine ⟨fun s => rfl, ?_⟩
  intro initSendClosed events h
  cases initSendClosed
  · right
    rw [monitorRun, if_neg (by simp)] at h
    induction events with
    | nil => simp [monitorLoopRun] at h
    | cons e rest ih =>
      cases e with
      | sendClosed => simp [LoopEvent.isChannelClosed]
      | recvClosed => simp [LoopEvent.isChannelClosed]
      | statsResponse createFails =>
        cases createFails with
        | true => simp [monitorLoopRun] at h
        | false =>
          simp only [monitorLoopRun, if_neg (by simp : ¬ (false = true))] at h
          have := ih h
          simpa [LoopEvent.isChannelClosed] using this
      | unexpectedMessage =>
        simp only [monitorLoopRun] at h
        have := ih h
        simpa [LoopEvent.isChannelClosed] using this
  · left
    rfl

/-- Witness for C10: a closed channel at a loop `recv_sync` makes the run
return, and the event list indeed reports the channel closed. -/
theorem monitor_stop_noop_and_exit_only_on_closed_witness :
    false = true ∨ [LoopEvent.recvClosed].any LoopEvent.isChannelClosed = true :=
  monitor_stop_noop_and_exit_only_on_closed.2 false [LoopEvent.recvClosed] rfl

end TrinciNode
